import Mathlib

/-!
Verification of the client/serve-attempt synchronization and normalization
layer of a process-server field-tracking application.  The definitions below
are a shallow embedding of the Remote Data Gateway object (the module that
wraps the remote document store): each Lean definition mirrors one gateway
function.  Remote calls are modelled by passing their outcome in as an
Except value (error = the remote call threw); side effects on browser
storage are modelled by explicit state passing; remote delete calls are
modelled as an emitted trace of operations.  JavaScript truthiness on
strings and numbers (undefined, empty string and 0 are falsy) is made
explicit through the jsOr helpers.
-/

set_option linter.unusedVariables false

/-- JS expression v OR d on a possibly-undefined string: undefined and the
empty string are falsy and fall back to the default. -/
def jsOr (v : Option String) (d : String) : String :=
  match v with
  | none => d
  | some s => if s = "" then d else s

/-- JS expression v OR null on a possibly-undefined string: undefined and
the empty string collapse to null. -/
def jsOrNull (v : Option String) : Option String :=
  match v with
  | none => none
  | some s => if s = "" then none else some s

/-- JS expression v OR d on a possibly-undefined number: undefined and 0 are
falsy and fall back to the default.  Also models the ternary on timestamps,
where a falsy timestamp falls back to the current time. -/
def jsOrNat (v : Option Nat) (d : Nat) : Nat :=
  match v with
  | none => d
  | some n => if n = 0 then d else n

/-- JS truthiness of a possibly-undefined string. -/
def jsTruthyStr (v : Option String) : Bool :=
  match v with
  | none => false
  | some s => s != ""

/-- JS expression a OR b where both sides are possibly-undefined strings
(used for doc.file_path OR doc.filePath). -/
def jsOrOpt (a b : Option String) : Option String :=
  match a with
  | none => b
  | some s => if s = "" then b else some s

/-- Raw serve-attempt document as stored in the remote collection.  Field
idA stands for the remote $id; all attribute fields are optional to model
documents of partial shape.  Timestamps are modelled as epoch numbers (the
date parsing and ISO formatting of the host is external). -/
structure ServeDoc where
  idA : String
  client_id : Option String
  client_name : Option String
  case_number : Option String
  case_name : Option String
  coordinates : Option String
  notes : Option String
  status : Option String
  timestamp : Option Nat
  attempt_number : Option Nat
  image_data : Option String
  address : Option String
deriving DecidableEq

/-- Canonical frontend serve-attempt record: the object literal built by the
gateway when mapping remote documents (fields id, clientId, clientName,
caseNumber, caseName, coordinates, notes, status, timestamp, attemptNumber,
imageData, address). -/
structure FrontendServe where
  id : String
  clientId : String
  clientName : String
  caseNumber : String
  caseName : String
  coordinates : Option String
  notes : String
  status : String
  timestamp : Nat
  attemptNumber : Nat
  imageData : Option String
  address : String
deriving DecidableEq

/-- The shared object literal of the three mapping sites (getServeAttempts,
getClientServeAttempts, syncAppwriteServesToLocal); the three sites differ
only in the imageData expression, which the caller passes in.  now models
new Date() for the falsy-timestamp fallback. -/
def formatServeDoc (now : Nat) (image : Option String) (doc : ServeDoc) : FrontendServe :=
  { id := doc.idA
    clientId := jsOr doc.client_id "unknown"
    clientName := jsOr doc.client_name "Unknown Client"
    caseNumber := jsOr doc.case_number "Unknown"
    caseName := jsOr doc.case_name "Unknown Case"
    coordinates := jsOrNull doc.coordinates
    notes := jsOr doc.notes ""
    status := jsOr doc.status "unknown"
    timestamp := jsOrNat doc.timestamp now
    attemptNumber := jsOrNat doc.attempt_number 1
    imageData := image
    address := jsOr doc.address "" }

/-- Raw client document (fields written by createClient). -/
structure ClientDoc where
  idA : String
  name : Option String
  email : Option String
  additional_emails : List String
  phone : Option String
  address : Option String
  notes : Option String
deriving DecidableEq

/-- Raw case document: only the fields the verified operations consult. -/
structure CaseRaw where
  idA : String
  client_id : Option String
deriving DecidableEq

/-- Raw client-document metadata record: only the fields the verified
operations consult (idA stands for $id; file_path and filePath are the two
casings probed by the cascade delete). -/
structure DocRaw where
  idA : String
  client_id : Option String
  file_path : Option String
  filePath : Option String
deriving DecidableEq

/-- getClients: lists the client collection; on a remote error it logs and
RETHROWS (unlike the other list operations below, it has no empty-list
fallback). -/
def getClients (remote : Except String (List ClientDoc)) : Except String (List ClientDoc) :=
  match remote with
  | .ok docs => .ok docs
  | .error e => .error e

/-- getServeAttempts limit offset: lists the serve-attempt collection with
Query.orderDesc timestamp, Query.limit and Query.offset applied server-side
(remote is the response for that query, already ordered and paged).  Maps
each document to the frontend shape; imageData is kept only when the call
has offset == 0, else nulled.  A remote error is caught, logged, and
degrades to the empty list. -/
def getServeAttempts (now limit offset : Nat) (remote : Except String (List ServeDoc)) :
    List FrontendServe :=
  match remote with
  | .error _ => []
  | .ok docs =>
      docs.map (fun doc =>
        formatServeDoc now (if offset = 0 then jsOrNull doc.image_data else none) doc)

/-- Stable insertion of one serve into a timestamp-descending list; together
with sortByTimestampDesc this models the JS Array sort with comparator
(a, b) => b.timestamp - a.timestamp, which is stable. -/
def insertByTimestampDesc (x : FrontendServe) : List FrontendServe → List FrontendServe
  | [] => [x]
  | y :: ys => if x.timestamp > y.timestamp then x :: y :: ys
               else y :: insertByTimestampDesc x ys

/-- Stable sort by timestamp descending (see insertByTimestampDesc). -/
def sortByTimestampDesc : List FrontendServe → List FrontendServe
  | [] => []
  | x :: xs => insertByTimestampDesc x (sortByTimestampDesc xs)

/-- getClientServeAttempts: lists serve attempts with Query.equal client_id
applied server-side (remote is that response), maps them to the frontend
shape keeping imageData, and sorts by timestamp descending.  A remote error
is caught, logged, and degrades to the empty list. -/
def getClientServeAttempts (now : Nat) (remote : Except String (List ServeDoc)) :
    List FrontendServe :=
  match remote with
  | .error _ => []
  | .ok docs =>
      sortByTimestampDesc (docs.map (fun doc => formatServeDoc now (jsOrNull doc.image_data) doc))

/-- getClientCases: lists cases with Query.equal client_id applied
server-side and returns the raw documents; a remote error is caught,
logged, and degrades to the empty list. -/
def getClientCases (remote : Except String (List CaseRaw)) : List CaseRaw :=
  match remote with
  | .ok docs => docs
  | .error _ => []

/-- getClientDocuments: lists document records with Query.equal client_id
(and optionally case_number) applied server-side and returns the raw
documents; a remote error is caught, logged, and degrades to the empty
list. -/
def getClientDocuments (remote : Except String (List DocRaw)) : List DocRaw :=
  match remote with
  | .ok docs => docs
  | .error _ => []

/-- Coordinates value of a serve-creation input: either a string or an
object with possibly-undefined latitude and longitude.  The numeric values
are modelled by their decimal string form (the template-literal formatting
of numbers is external to this layer). -/
inductive JsCoords where
  | str : String → JsCoords
  | obj : Option String → Option String → JsCoords
deriving DecidableEq

/-- JS truthiness of a possibly-undefined coordinates value: undefined and
the empty string are falsy, every object is truthy. -/
def jsCoordsTruthy : Option JsCoords → Bool
  | none => false
  | some (.str s) => s != ""
  | some (.obj _ _) => true

/-- JS expression coordinates OR null (used by the local-storage fallback of
createServeAttempt). -/
def jsCoordsOrNull (c : Option JsCoords) : Option JsCoords :=
  if jsCoordsTruthy c then c else none

/-- Coordinate normalization block of createServeAttempt: starts from the
default "0,0"; a truthy string passes through; an object with both latitude
and longitude defined becomes the string lat,lng; anything else keeps the
default.  An empty coordinate string is falsy in JS and therefore keeps the
default "0,0". -/
def normalizeCoordinates (c : Option JsCoords) : String :=
  match c with
  | some (JsCoords.str s) => if s = "" then "0,0" else s
  | some (JsCoords.obj (some lat) (some lng)) => lat ++ "," ++ lng
  | _ => "0,0"

/-- Address fallback of createServeAttempt: used when the input address is
falsy; a string-typed coordinates value (even the empty string) yields a
Coordinates prefix, anything else the fixed sentinel. -/
def defaultAddress : Option JsCoords → String
  | some (JsCoords.str s) => "Coordinates: " ++ s
  | _ => "Address not provided"

/-- Input object accepted by createServeAttempt; every field may be
undefined. -/
structure ServeCreateInput where
  clientId : Option String
  clientName : Option String
  clientEmail : Option String
  caseNumber : Option String
  caseName : Option String
  coordinates : Option JsCoords
  notes : Option String
  status : Option String
  timestamp : Option Nat
  attemptNumber : Option Nat
  imageData : Option String
  address : Option String
deriving DecidableEq

/-- Payload written by createServeAttempt to the remote serve-attempt
collection (keys client_id, client_name, case_number, case_name, status,
notes, address, coordinates, image_data, timestamp, attempt_number). -/
structure ServePayload where
  client_id : Option String
  client_name : String
  case_number : String
  case_name : String
  status : String
  notes : String
  address : String
  coordinates : String
  image_data : String
  timestamp : Nat
  attempt_number : Nat
deriving DecidableEq

/-- Client-name resolution block of createServeAttempt: a falsy input name
defaults to Unknown Client; exactly in that case the owning client record
is fetched (fetchClient carries the name attribute of that record), and a
truthy fetched name replaces the sentinel; any fetch failure is caught and
the sentinel kept. -/
def resolveClientName (d : ServeCreateInput) (fetchClient : Except String (Option String)) :
    String :=
  let n := jsOr d.clientName "Unknown Client"
  if n = "Unknown Client" then
    match fetchClient with
    | .ok (some nm) => if nm = "" then n else nm
    | _ => n
  else n

/-- Payload construction of createServeAttempt (the object literal named
payload in the source), given the already-resolved client name; now models
new Date() for the falsy-timestamp fallback. -/
def buildServePayload (now : Nat) (d : ServeCreateInput) (clientName : String) : ServePayload :=
  { client_id := d.clientId
    client_name := clientName
    case_number := jsOr d.caseNumber "Not Specified"
    case_name := jsOr d.caseName "Unknown Case"
    status := jsOr d.status "unknown"
    notes := jsOr d.notes ""
    address := jsOr d.address (defaultAddress d.coordinates)
    coordinates := normalizeCoordinates d.coordinates
    image_data := jsOr d.imageData ""
    timestamp := jsOrNat d.timestamp now
    attempt_number := jsOrNat d.attemptNumber 1 }

/-- Record pushed to browser storage by the local-storage fallback of
createServeAttempt (the object literal named newServe in the source); note
its defaults differ from the remote payload (caseNumber Unknown, raw
coordinates, null image, timestamp always now). -/
structure LocalServe where
  id : String
  clientId : Option String
  clientName : String
  clientEmail : Option String
  caseNumber : String
  caseName : String
  coordinates : Option JsCoords
  notes : String
  status : String
  timestamp : Nat
  attemptNumber : Nat
  imageData : Option String
  address : String
deriving DecidableEq

/-- The newServe object literal of the createServeAttempt fallback; uid
models ID.unique(), now models new Date(). -/
def buildLocalServe (uid : String) (now : Nat) (d : ServeCreateInput) : LocalServe :=
  { id := uid
    clientId := d.clientId
    clientName := jsOr d.clientName "Unknown Client"
    clientEmail := d.clientEmail
    caseNumber := jsOr d.caseNumber "Unknown"
    caseName := jsOr d.caseName "Unknown Case"
    coordinates := jsCoordsOrNull d.coordinates
    notes := jsOr d.notes ""
    status := jsOr d.status "unknown"
    timestamp := now
    attemptNumber := jsOrNat d.attemptNumber 1
    imageData := jsOrNull d.imageData
    address := jsOr d.address "" }

/-- Value returned by createServeAttempt: either the remote response
document or the local fallback record. -/
inductive CreateOutcome where
  | remote : ServeDoc → CreateOutcome
  | localFallback : LocalServe → CreateOutcome
deriving DecidableEq

/-- createServeAttempt.  The try block validates the client id (falsy or the
literal unknown throws), resolves the display name, builds the payload and
issues the remote create (remoteCreate gives the outcome of that call for the
payload it receives).  The surrounding catch intercepts ANY error from the
try block: it appends a locally built record to the browser-storage serve
list and returns it as the result; only if that local write itself fails
(localStorageFails) is the original error rethrown.  After a successful
remote create an email notification is attempted inside its own try/catch
(pure side effect, absorbed, not modelled in the result); the response is
returned.  Returns the outcome together with the browser-storage serve list
after the call. -/
def createServeAttempt (uid : String) (now : Nat) (d : ServeCreateInput)
    (fetchClient : Except String (Option String))
    (remoteCreate : ServePayload → Except String ServeDoc)
    (localStorageFails : Bool) (priorLocal : List LocalServe) :
    Except String (CreateOutcome × List LocalServe) :=
  let tryResult : Except String ServeDoc :=
    if jsTruthyStr d.clientId = false ∨ d.clientId = some "unknown" then
      .error "Valid client ID is required for serve attempts."
    else
      remoteCreate (buildServePayload now d (resolveClientName d fetchClient))
  match tryResult with
  | .ok resp => .ok (.remote resp, priorLocal)
  | .error e =>
      if localStorageFails then .error e
      else
        let newServe := buildLocalServe uid now d
        .ok (.localFallback newServe, priorLocal ++ [newServe])

/-- Input object accepted by updateServeAttempt; the last six fields are the
immutable ones (present in serve data but never consulted by the diff). -/
structure ServeUpdateInput where
  notes : Option String
  status : Option String
  caseNumber : Option String
  caseName : Option String
  clientId : Option String
  coordinates : Option String
  imageData : Option String
  address : Option String
  timestamp : Option Nat
  attemptNumber : Option Nat
deriving DecidableEq

/-- One conditional assignment of the updateServeAttempt diff: the key is
added exactly when the input field is defined and differs from the stored
attribute. -/
def diffField (input : Option String) (stored : Option String) (key : String) :
    List (String × String) :=
  match input with
  | none => []
  | some v => if stored = some v then [] else [(key, v)]

/-- The updateData object of updateServeAttempt: the four conditional
assignments, in source order (notes, status, case_number, case_name);
modelled as a key-value list so that the absence of every other key is a
provable property rather than a consequence of a narrowed type. -/
def computeUpdateData (d : ServeUpdateInput) (orig : ServeDoc) : List (String × String) :=
  diffField d.notes orig.notes "notes" ++
  diffField d.status orig.status "status" ++
  diffField d.caseNumber orig.case_number "case_number" ++
  diffField d.caseName orig.case_name "case_name"

/-- updateServeAttempt: fetches the stored document (fetchOrig; a fetch
error propagates), computes the diff, and if the diff is non-empty issues
the remote write with exactly that payload (remoteUpdate; a write error
propagates), then attempts an email notification and a local resync, both
best-effort side effects absorbed by their own error handling.  If the diff
is empty, no write is issued and the unmodified stored document is
returned.  The result carries the payload sent (none when no write
happened) and the returned document. -/
def updateServeAttempt (fetchOrig : Except String ServeDoc) (d : ServeUpdateInput)
    (remoteUpdate : List (String × String) → Except String ServeDoc) :
    Except String (Option (List (String × String)) × ServeDoc) :=
  match fetchOrig with
  | .error e => .error e
  | .ok orig =>
      let updateData := computeUpdateData d orig
      if updateData.length > 0 then
        match remoteUpdate updateData with
        | .error e => .error e
        | .ok resp => .ok (some updateData, resp)
      else
        .ok (none, orig)

/-- One remote mutation issued during a deletion cascade. -/
inductive RemoteOp where
  | deleteCaseDoc : String → RemoteOp
  | deleteServeDoc : String → RemoteOp
  | deleteFile : String → RemoteOp
  | deleteDocRecord : String → RemoteOp
  | deleteClientDoc : String → RemoteOp
deriving DecidableEq

/-- Whether a remote operation deletes a serve-attempt document. -/
def RemoteOp.isServeDelete : RemoteOp → Bool
  | .deleteServeDoc _ => true
  | _ => false

/-- deleteClientCase: one remote document delete; an error propagates to the
caller.  Returns the trace of issued calls and the outcome. -/
def deleteClientCase (caseId : String) (fails : Bool) :
    List RemoteOp × Except String Bool :=
  ([RemoteOp.deleteCaseDoc caseId], if fails then .error "delete case failed" else .ok true)

/-- deleteServeAttempt: a falsy serve id (undefined or empty) is rejected up
front with a warning and the value false, WITHOUT any remote call; a truthy
id issues the remote delete, whose error propagates. -/
def deleteServeAttempt (serveId : Option String) (fails : String → Bool) :
    List RemoteOp × Except String Bool :=
  match jsOrNull serveId with
  | none => ([], Except.ok false)
  | some s =>
      ([RemoteOp.deleteServeDoc s], if fails s then .error "delete serve failed" else .ok true)

/-- File-reference validity check of deleteClientDocument: the regex
[a-zA-Z0-9_] with length 1 to 36, combined with the extra rejection of a
leading underscore (startsWith is modelled by the head character). -/
def isValidFileId (s : String) : Bool :=
  1 ≤ s.length && s.length ≤ 36 &&
  s.toList.all (fun c => c.isAlphanum || c == '_') &&
  !(s.toList.head? == some '_')

/-- deleteClientDocument: with a truthy but invalid file id the blob delete
is skipped (warning only); with a valid file id the blob delete is issued
first and its error propagates (leaving the metadata record in place); the
metadata record delete is always issued when reached and its error
propagates. -/
def deleteClientDocument (docId : String) (fileId : Option String)
    (fileFails : String → Bool) (docFails : String → Bool) :
    List RemoteOp × Except String Bool :=
  match jsOrNull fileId with
  | some f =>
      if !isValidFileId f then
        ([RemoteOp.deleteDocRecord docId],
         if docFails docId then .error "delete document failed" else .ok true)
      else if fileFails f then
        ([RemoteOp.deleteFile f], .error "delete file failed")
      else
        ([RemoteOp.deleteFile f, RemoteOp.deleteDocRecord docId],
         if docFails docId then .error "delete document failed" else .ok true)
  | none =>
      ([RemoteOp.deleteDocRecord docId],
       if docFails docId then .error "delete document failed" else .ok true)

/-- Outcome of deleteClient: the full trace of remote mutations issued, and
the value returned or error thrown. -/
structure DeleteClientRun where
  trace : List RemoteOp
  result : Except String Bool

/-- deleteClient: fetches the cases, serve attempts and documents of the
client (each fetch already degrades to the empty list on error), then runs
three sequential cascade loops in which every per-item delete is wrapped in
its own try/catch (a failed item is logged and the loop continues), and
finally deletes the client record itself; only an error of that last delete
propagates.  The serve loop reads the $id property of the objects returned
by getClientServeAttempts; those objects carry the key id, not $id, so the
property access yields undefined and deleteServeAttempt is always invoked
with an undefined id. -/
def deleteClient (clientId : String) (now : Nat)
    (fetchCases : Except String (List CaseRaw))
    (fetchServes : Except String (List ServeDoc))
    (fetchDocs : Except String (List DocRaw))
    (caseFails : String → Bool) (serveFails : String → Bool)
    (fileFails : String → Bool) (docFails : String → Bool)
    (clientFails : Bool) : DeleteClientRun :=
  let cases := getClientCases fetchCases
  let caseTrace := cases.flatMap (fun c => (deleteClientCase c.idA (caseFails c.idA)).1)
  let serves := getClientServeAttempts now fetchServes
  let serveTrace := serves.flatMap (fun _ => (deleteServeAttempt none serveFails).1)
  let documents := getClientDocuments fetchDocs
  let docTrace := documents.flatMap (fun d =>
    (deleteClientDocument d.idA (jsOrOpt d.file_path d.filePath) fileFails docFails).1)
  { trace := caseTrace ++ serveTrace ++ docTrace ++ [RemoteOp.deleteClientDoc clientId]
    result := if clientFails then .error "client delete failed" else .ok true }

/-- resolveClientId: queries the case, document and serve-attempt
collections in that order with Query.equal client_id (modelled as the
filter on the client_id attribute of the full collections); the first
non-empty result returns the input id, and when all three are empty the
result is null.  The surrounding catch also returns null on a remote error
(error injection not modelled; the claims concern the query outcomes). -/
def resolveClientId (cid : String) (casesColl : List CaseRaw) (docsColl : List DocRaw)
    (servesColl : List ServeDoc) : Option String :=
  let cases := casesColl.filter (fun c => c.client_id = some cid)
  if cases.length > 0 then some cid
  else
    let documents := docsColl.filter (fun d => d.client_id = some cid)
    if documents.length > 0 then some cid
    else
      let serves := servesColl.filter (fun s => s.client_id = some cid)
      if serves.length > 0 then some cid
      else none

/-- The mapping step of syncAppwriteServesToLocal: maps the fetched window
to the frontend shape; imageData is kept only for the first 20 positions of
the batch (indexOf on distinct document objects is the position). -/
def syncFormat (now : Nat) (docs : List ServeDoc) : List FrontendServe :=
  docs.enum.map (fun p =>
    formatServeDoc now (if p.1 < 20 then jsOrNull p.2.image_data else none) p.2)

/-- Outcome of syncAppwriteServesToLocal: the boolean the function returns,
the browser-storage serve list after the call, and whether the
serves-updated browser event was dispatched. -/
structure SyncOutcome where
  result : Bool
  store : List FrontendServe
  broadcast : Bool
deriving DecidableEq

/-- syncAppwriteServesToLocal: fetches the most recent window (ordered by
timestamp descending, limit 100, applied server-side; remote is that
response).  An empty response returns false and leaves the local store
untouched.  Otherwise the batch is mapped (images only within the first 20
positions), its serialized size computed (sizeBytes models the byte size of
the JSON string; the source compares megabytes against 5, equivalent to
bytes against 5 * 1024 * 1024); when the threshold is exceeded every record
of the batch has its image nulled.  The store is then replaced wholesale
and the serves-updated event dispatched.  A remote error is caught and the
function returns false with the store untouched. -/
def syncAppwriteServesToLocal (now : Nat) (remote : Except String (List ServeDoc))
    (sizeBytes : List FrontendServe → Nat) (prior : List FrontendServe) : SyncOutcome :=
  match remote with
  | .error _ => { result := false, store := prior, broadcast := false }
  | .ok docs =>
      if docs.length = 0 then { result := false, store := prior, broadcast := false }
      else
        let frontendServes := syncFormat now docs
        let finalServes :=
          if sizeBytes frontendServes > 5 * 1024 * 1024 then
            frontendServes.map (fun s => { s with imageData := none })
          else frontendServes
        { result := true, store := finalServes, broadcast := true }

/-! Concrete sample data used by counterexamples and witnesses. -/

/-- Sample remote serve-attempt document carrying an image payload. -/
def docWithImage : ServeDoc :=
  { idA := "serve1"
    client_id := some "client1"
    client_name := some "Jane Doe"
    case_number := some "CV-100"
    case_name := some "Doe v Roe"
    coordinates := some "1,2"
    notes := some "left at door"
    status := some "completed"
    timestamp := some 1000
    attempt_number := some 1
    image_data := some "img"
    address := some "1 Main St" }

/-- C1: claims that a getServeAttempts call with offset == 0 returns a
non-null image payload only at positions strictly below 20.  Counterexample:
a page of 21 documents, each with a stored image, returns a non-null image
at position 20 as well, because getServeAttempts gates images on the offset
of the call only, never on the position of the record. -/
theorem getServeAttempts_offset0_image_at_position_20 :
    ((getServeAttempts 0 50 0 (Except.ok (List.replicate 21 docWithImage))).map
      (fun s => s.imageData))[20]? = some (some "img") := by decide

/-- C1 (amended): with offset == 0, getServeAttempts keeps the stored image
payload at EVERY position of the returned page (null exactly when the
stored image attribute is absent or empty); the per-record first-20 gate
exists only in the local-cache sync, not in this list operation. -/
theorem getServeAttempts_offset0_images_unfiltered (now limit : Nat)
    (docs : List ServeDoc) :
    (getServeAttempts now limit 0 (Except.ok docs)).map (fun s => s.imageData) =
      docs.map (fun doc => jsOrNull doc.image_data) := by
  simp [getServeAttempts, formatServeDoc]

/-- C2: claims every list/read operation of the gateway degrades a remote
failure to an empty result.  Counterexample: getClients rethrows the remote
error instead of returning an empty list. -/
theorem getClients_error_propagates :
    getClients (Except.error "network error") = Except.error "network error" ∧
    getClients (Except.error "network error") ≠ Except.ok [] :=
  ⟨rfl, fun h => Except.noConfusion h⟩

/-- C2 (amended): the serve-attempt, per-client serve-attempt, case and
document list operations catch a remote failure and degrade to the empty
list; getClients alone catches, logs, and rethrows the error. -/
theorem list_reads_degrade_except_getClients (e : String) (now limit offset : Nat) :
    getServeAttempts now limit offset (Except.error e) = [] ∧
    getClientServeAttempts now (Except.error e) = [] ∧
    getClientCases (Except.error e) = [] ∧
    getClientDocuments (Except.error e) = [] ∧
    getClients (Except.error e) = Except.error e :=
  ⟨rfl, rfl, rfl, rfl, rfl⟩

/-- C10: a sync whose remote window holds zero serve-attempt records
returns false, leaves the previously persisted local cache untouched, and
dispatches no serves-updated event. -/
theorem sync_empty_window_leaves_store_unchanged (now : Nat)
    (sizeBytes : List FrontendServe → Nat) (prior : List FrontendServe) :
    syncAppwriteServesToLocal now (Except.ok []) sizeBytes prior =
      { result := false, store := prior, broadcast := false } := rfl

/-- An input field that is undefined, or equal to the stored attribute,
contributes nothing to the update diff. -/
theorem diffField_eq_nil (i s : Option String) (k : String) (h : i = none ∨ i = s) :
    diffField i s k = [] := by
  rcases h with h | h
  · simp [diffField, h]
  · subst h
    cases i with
    | none => simp [diffField]
    | some v => simp [diffField]

/-- Sample stored serve-attempt document for the update claims. -/
def sampleStoredServe : ServeDoc :=
  { idA := "serve9"
    client_id := some "client1"
    client_name := some "Jane Doe"
    case_number := some "CV-1"
    case_name := some "A v B"
    coordinates := some "1,2"
    notes := some "first note"
    status := some "completed"
    timestamp := some 5
    attempt_number := some 1
    image_data := some "img"
    address := some "1 Main St" }

/-- Update input identical to sampleStoredServe on every diffable field,
with every immutable field present as well. -/
def sampleIdenticalUpdate : ServeUpdateInput :=
  { notes := some "first note"
    status := some "completed"
    caseNumber := some "CV-1"
    caseName := some "A v B"
    clientId := some "client1"
    coordinates := some "1,2"
    imageData := some "img"
    address := some "1 Main St"
    timestamp := some 5
    attemptNumber := some 1 }

/-- C4: a serve-attempt update whose input agrees with the stored document
on every diffable field (each field undefined or equal to the stored value)
issues no remote write and returns the original stored document unchanged,
whatever the remote write would have done. -/
theorem updateServeAttempt_identical_is_noop (orig : ServeDoc) (d : ServeUpdateInput)
    (remoteUpdate : List (String × String) → Except String ServeDoc)
    (h1 : d.notes = none ∨ d.notes = orig.notes)
    (h2 : d.status = none ∨ d.status = orig.status)
    (h3 : d.caseNumber = none ∨ d.caseNumber = orig.case_number)
    (h4 : d.caseName = none ∨ d.caseName = orig.case_name) :
    updateServeAttempt (Except.ok orig) d remoteUpdate = Except.ok (none, orig) := by
  have e1 := diffField_eq_nil d.notes orig.notes "notes" h1
  have e2 := diffField_eq_nil d.status orig.status "status" h2
  have e3 := diffField_eq_nil d.caseNumber orig.case_number "case_number" h3
  have e4 := diffField_eq_nil d.caseName orig.case_name "case_name" h4
  simp [updateServeAttempt, computeUpdateData, e1, e2, e3, e4]

/-- C4 witness: a concrete identical update against a concrete stored
document, with a remote write stub that would fail if it were reached. -/
theorem updateServeAttempt_identical_is_noop_witness :
    (sampleIdenticalUpdate.notes = none ∨
      sampleIdenticalUpdate.notes = sampleStoredServe.notes) ∧
    (sampleIdenticalUpdate.status = none ∨
      sampleIdenticalUpdate.status = sampleStoredServe.status) ∧
    (sampleIdenticalUpdate.caseNumber = none ∨
      sampleIdenticalUpdate.caseNumber = sampleStoredServe.case_number) ∧
    (sampleIdenticalUpdate.caseName = none ∨
      sampleIdenticalUpdate.caseName = sampleStoredServe.case_name) ∧
    updateServeAttempt (Except.ok sampleStoredServe) sampleIdenticalUpdate
      (fun _ => Except.error "write issued") = Except.ok (none, sampleStoredServe) :=
  ⟨Or.inr rfl, Or.inr rfl, Or.inr rfl, Or.inr rfl,
   updateServeAttempt_identical_is_noop sampleStoredServe sampleIdenticalUpdate
     (fun _ => Except.error "write issued")
     (Or.inr rfl) (Or.inr rfl) (Or.inr rfl) (Or.inr rfl)⟩

/-- Every key emitted by one diff assignment is the fixed key of that
assignment, so it satisfies any predicate the fixed key satisfies. -/
theorem diffField_key_all (i s : Option String) (k : String) (p : String → Bool)
    (hp : p k = true) : ((diffField i s k).map Prod.fst).all p = true := by
  cases i with
  | none => simp [diffField]
  | some v =>
      by_cases h : s = some v
      · simp [diffField, h]
      · simp [diffField, h, hp]

/-- C5: the update payload computed by updateServeAttempt (the exact and
only payload it ever writes) contains no key besides notes, status,
case_number and case_name; in particular none of the immutable keys
client_id, timestamp, coordinates, image_data, address, attempt_number ever
appears, whatever fields the input carries. -/
theorem updatePayload_only_mutable_keys (d : ServeUpdateInput) (orig : ServeDoc) :
    (((computeUpdateData d orig).map Prod.fst).all
      (fun k => k == "notes" || k == "status" || k == "case_number" ||
                k == "case_name")) = true ∧
    (((computeUpdateData d orig).map Prod.fst).all
      (fun k => !(k == "client_id" || k == "timestamp" || k == "coordinates" ||
                  k == "image_data" || k == "address" || k == "attempt_number"))) = true := by
  unfold computeUpdateData
  constructor <;>
  · simp only [List.map_append, List.all_append, Bool.and_eq_true]
    repeat' apply And.intro
    all_goals exact diffField_key_all _ _ _ _ (by decide)

/-- A Query.equal result (modelled as a filter) is non-empty exactly when
some record of the collection carries the sought client_id. -/
theorem filter_length_pos_iff {α : Type} (l : List α) (p : α → Prop) [DecidablePred p] :
    0 < (l.filter (fun a => decide (p a))).length ↔ ∃ a ∈ l, p a := by
  rw [List.length_pos_iff_exists_mem]
  simp [List.mem_filter]

/-- C6: resolveClientId searches cases, then documents, then serve attempts
in that priority order, returns the input id exactly when some record in
any of the three collections references it as client_id, and returns null
when none match. -/
theorem resolveClientId_found_iff (cid : String) (casesColl : List CaseRaw)
    (docsColl : List DocRaw) (servesColl : List ServeDoc) :
    resolveClientId cid casesColl docsColl servesColl =
      (if (∃ c ∈ casesColl, c.client_id = some cid) ∨
          (∃ d ∈ docsColl, d.client_id = some cid) ∨
          (∃ s ∈ servesColl, s.client_id = some cid)
       then some cid else none) := by
  have key1 := filter_length_pos_iff casesColl (fun c => c.client_id = some cid)
  have key2 := filter_length_pos_iff docsColl (fun d => d.client_id = some cid)
  have key3 := filter_length_pos_iff servesColl (fun s => s.client_id = some cid)
  simp only [resolveClientId]
  by_cases h1 : ∃ c ∈ casesColl, c.client_id = some cid
  · rw [if_pos (key1.mpr h1), if_pos (Or.inl h1)]
  · rw [if_neg (fun hp => h1 (key1.mp hp))]
    by_cases h2 : ∃ d ∈ docsColl, d.client_id = some cid
    · rw [if_pos (key2.mpr h2), if_pos (Or.inr (Or.inl h2))]
    · rw [if_neg (fun hp => h2 (key2.mp hp))]
      by_cases h3 : ∃ s ∈ servesColl, s.client_id = some cid
      · rw [if_pos (key3.mpr h3), if_pos (Or.inr (Or.inr h3))]
      · rw [if_neg (fun hp => h3 (key3.mp hp)),
            if_neg (fun hp => hp.elim h1 (fun hp => hp.elim h2 h3))]

/-- C7: a sync batch whose serialized size exceeds 5 MB is persisted with
every record having a null image payload, including the records within the
first-20 recency window, and the sync still reports success. -/
theorem sync_over_5MB_strips_all_images (now : Nat) (docs : List ServeDoc)
    (sizeBytes : List FrontendServe → Nat) (prior : List FrontendServe)
    (hne : 0 < docs.length)
    (hsize : sizeBytes (syncFormat now docs) > 5 * 1024 * 1024) :
    (syncAppwriteServesToLocal now (Except.ok docs) sizeBytes prior).result = true ∧
    ((syncAppwriteServesToLocal now (Except.ok docs) sizeBytes prior).store).all
      (fun s => s.imageData == none) = true := by
  simp only [syncAppwriteServesToLocal]
  rw [if_neg (by omega), if_pos hsize]
  refine ⟨rfl, ?_⟩
  simp [List.all_eq_true]

/-- Size stub representing a serialized batch larger than 5 MB. -/
def bigSize : List FrontendServe → Nat := fun _ => 6 * 1024 * 1024

/-- C7 witness: a one-record batch whose serialized size stub exceeds the
threshold is stored with its image nulled even though the record sits at
position 0, inside the first-20 window. -/
theorem sync_over_5MB_strips_all_images_witness :
    0 < [docWithImage].length ∧
    bigSize (syncFormat 0 [docWithImage]) > 5 * 1024 * 1024 ∧
    ((syncAppwriteServesToLocal 0 (Except.ok [docWithImage]) bigSize []).result = true ∧
     ((syncAppwriteServesToLocal 0 (Except.ok [docWithImage]) bigSize []).store).all
       (fun s => s.imageData == none) = true) :=
  ⟨by decide, by decide,
   sync_over_5MB_strips_all_images 0 [docWithImage] bigSize [] (by decide) (by decide)⟩

/-- Serve-creation input with every optional field undefined except a valid
client id and a client name. -/
def baseCreateInput : ServeCreateInput :=
  { clientId := some "client1"
    clientName := some "Jane Doe"
    clientEmail := none
    caseNumber := none
    caseName := none
    coordinates := none
    notes := none
    status := none
    timestamp := none
    attemptNumber := none
    imageData := none
    address := none }

/-- Creation input whose coordinates are the structured pair 12.34 / 56.78. -/
def pairCoordsInput : ServeCreateInput :=
  { baseCreateInput with coordinates := some (JsCoords.obj (some "12.34") (some "56.78")) }

/-- Creation input whose coordinates are already the string 12.34,56.78. -/
def strCoordsInput : ServeCreateInput :=
  { baseCreateInput with coordinates := some (JsCoords.str "12.34,56.78") }

/-- Creation input whose coordinates are the empty string. -/
def emptyStrCoordsInput : ServeCreateInput :=
  { baseCreateInput with coordinates := some (JsCoords.str "") }

/-- C8: claims a coordinates value already supplied as a string is always
persisted unchanged.  Counterexample: the empty string is falsy in JS, so
the normalization keeps the default and persists 0,0 instead of the empty
string. -/
theorem coordinates_empty_string_not_preserved :
    (buildServePayload 0 emptyStrCoordsInput "Jane Doe").coordinates = "0,0" ∧
    ("0,0" : String) ≠ "" := by decide

/-- C8 (amended): a structured pair with both latitude and longitude present
is persisted as the string lat,lng, and a NON-EMPTY coordinate string is
persisted unchanged; the empty string is falsy and falls back to the
default 0,0 exactly like absent coordinates. -/
theorem buildServePayload_coordinates_normalized (now : Nat) (d : ServeCreateInput)
    (clientName : String) :
    (∀ a b, d.coordinates = some (JsCoords.obj (some a) (some b)) →
      (buildServePayload now d clientName).coordinates = a ++ "," ++ b) ∧
    (∀ s, s ≠ "" → d.coordinates = some (JsCoords.str s) →
      (buildServePayload now d clientName).coordinates = s) := by
  constructor
  · intro a b h
    simp [buildServePayload, normalizeCoordinates, h]
  · intro s hs h
    simp [buildServePayload, normalizeCoordinates, h, hs]

/-- C8 witness: concrete pair and string inputs run through the persisted
payload. -/
theorem buildServePayload_coordinates_normalized_witness :
    (buildServePayload 0 pairCoordsInput "Jane Doe").coordinates = "12.34" ++ "," ++ "56.78" ∧
    ("12.34,56.78" : String) ≠ "" ∧
    (buildServePayload 0 strCoordsInput "Jane Doe").coordinates = "12.34,56.78" :=
  ⟨(buildServePayload_coordinates_normalized 0 pairCoordsInput "Jane Doe").1 "12.34" "56.78" rfl,
   by decide,
   (buildServePayload_coordinates_normalized 0 strCoordsInput "Jane Doe").2 "12.34,56.78"
     (by decide) rfl⟩

/-- C9: when the client-id validation passes but the remote create fails,
createServeAttempt does not propagate the error: it appends a locally built
record to the browser-storage serve list and returns that record as the
successful result; the original error is thrown only when the local-storage
fallback itself fails. -/
theorem createServeAttempt_falls_back_to_local (uid : String) (now : Nat)
    (d : ServeCreateInput) (fetchClient : Except String (Option String))
    (remoteCreate : ServePayload → Except String ServeDoc)
    (priorLocal : List LocalServe) (e : String)
    (hval : jsTruthyStr d.clientId = true)
    (hunk : d.clientId ≠ some "unknown")
    (hfail : remoteCreate (buildServePayload now d (resolveClientName d fetchClient)) =
      Except.error e) :
    createServeAttempt uid now d fetchClient remoteCreate false priorLocal =
      Except.ok (CreateOutcome.localFallback (buildLocalServe uid now d),
        priorLocal ++ [buildLocalServe uid now d]) ∧
    createServeAttempt uid now d fetchClient remoteCreate true priorLocal =
      Except.error e := by
  have hcond : ¬(jsTruthyStr d.clientId = false ∨ d.clientId = some "unknown") := by
    rw [hval]
    simp [hunk]
  constructor <;>
  · simp only [createServeAttempt]
    rw [if_neg hcond, hfail]
    simp

/-- Remote create stub that always fails. -/
def failingCreate : ServePayload → Except String ServeDoc :=
  fun _ => Except.error "network error"

/-- C9 witness: a concrete valid input whose remote create fails is returned
from browser storage; with a failing local store the original error is
rethrown. -/
theorem createServeAttempt_falls_back_to_local_witness :
    jsTruthyStr baseCreateInput.clientId = true ∧
    baseCreateInput.clientId ≠ some "unknown" ∧
    failingCreate (buildServePayload 0 baseCreateInput
      (resolveClientName baseCreateInput (Except.ok (some "Jane Doe")))) =
      Except.error "network error" ∧
    (createServeAttempt "local1" 0 baseCreateInput (Except.ok (some "Jane Doe"))
        failingCreate false [] =
      Except.ok (CreateOutcome.localFallback (buildLocalServe "local1" 0 baseCreateInput),
        [] ++ [buildLocalServe "local1" 0 baseCreateInput]) ∧
     createServeAttempt "local1" 0 baseCreateInput (Except.ok (some "Jane Doe"))
        failingCreate true [] = Except.error "network error") :=
  ⟨by decide, by decide, rfl,
   createServeAttempt_falls_back_to_local "local1" 0 baseCreateInput
     (Except.ok (some "Jane Doe")) failingCreate [] "network error"
     (by decide) (by decide) rfl⟩

/-- The case-cascade loop issues only case-document deletions. -/
theorem caseTrace_no_serve_delete (cases : List CaseRaw) (f : String → Bool) :
    ((cases.flatMap (fun c => (deleteClientCase c.idA (f c.idA)).1)).filter
      RemoteOp.isServeDelete) = [] := by
  induction cases with
  | nil => rfl
  | cons c cs ih =>
      simp only [List.flatMap_cons, List.filter_append, ih, List.append_nil]
      simp [deleteClientCase, RemoteOp.isServeDelete]

/-- A flatMap whose body is always the empty list is the empty list. -/
theorem flatMap_const_nil {α β : Type} (l : List α) :
    (l.flatMap fun _ => ([] : List β)) = [] := by
  induction l with
  | nil => rfl
  | cons x xs ih => simp only [List.flatMap_cons, List.nil_append, ih]

/-- The serve-cascade loop issues no remote call at all: every iteration
passes an undefined id to deleteServeAttempt, which bails out before the
remote delete. -/
theorem serveTrace_empty (serves : List FrontendServe) (f : String → Bool) :
    serves.flatMap (fun _ => (deleteServeAttempt none f).1) = [] := by
  show (serves.flatMap fun _ => ([] : List RemoteOp)) = []
  exact flatMap_const_nil serves

/-- A single document deletion issues only blob and metadata deletions. -/
theorem deleteClientDocument_no_serve_delete (docId : String) (fid : Option String)
    (ff df : String → Bool) :
    ((deleteClientDocument docId fid ff df).1.filter RemoteOp.isServeDelete) = [] := by
  unfold deleteClientDocument
  cases jsOrNull fid with
  | none => simp [RemoteOp.isServeDelete]
  | some f =>
      by_cases h1 : isValidFileId f
      · by_cases h2 : ff f
        · simp [h1, h2, RemoteOp.isServeDelete]
        · simp [h1, h2, RemoteOp.isServeDelete]
      · simp [h1, RemoteOp.isServeDelete]

/-- The document-cascade loop issues only blob and metadata deletions. -/
theorem docTrace_no_serve_delete (docs : List DocRaw) (ff df : String → Bool) :
    ((docs.flatMap (fun d =>
        (deleteClientDocument d.idA (jsOrOpt d.file_path d.filePath) ff df).1)).filter
      RemoteOp.isServeDelete) = [] := by
  induction docs with
  | nil => rfl
  | cons d ds ih =>
      simp only [List.flatMap_cons, List.filter_append, ih, List.append_nil]
      exact deleteClientDocument_no_serve_delete _ _ _ _

/-- The two cases of the spec scenario. -/
def specCases : List CaseRaw :=
  [{ idA := "case1", client_id := some "client1" },
   { idA := "case2", client_id := some "client1" }]

/-- One of the three serve attempts of the spec scenario. -/
def specServe (i : String) (t : Nat) : ServeDoc :=
  { docWithImage with idA := i, timestamp := some t }

/-- The three serve attempts of the spec scenario. -/
def specServes : List ServeDoc :=
  [specServe "serve1" 3, specServe "serve2" 2, specServe "serve3" 1]

/-- The single document of the spec scenario, with a valid file reference. -/
def specDocs : List DocRaw :=
  [{ idA := "doc1", client_id := some "client1", file_path := some "file1", filePath := none }]

/-- C3: the claim (cascade deletes cases, then serve attempts, then
documents, each item individually, before deleting the client) is the
evident intent, but the code never deletes any serve attempt: the serve
loop reads the $id property of the formatted objects returned by
getClientServeAttempts, which only carry an id key, so deleteServeAttempt
always receives undefined, warns, and returns without a remote call.
First conjunct: for every input whatsoever, the trace of remote mutations
issued by deleteClient contains no serve-attempt deletion.  Remaining
conjuncts evaluate the spec scenario (2 cases, 3 serve attempts of which
one is simulated to fail, 1 document): both cases, the blob, the document
record and the client record are deleted, yet no serve-attempt deletion is
ever issued. -/
theorem deleteClient_never_deletes_serve_attempts :
    (∀ (clientId : String) (now : Nat) (fetchCases : Except String (List CaseRaw))
       (fetchServes : Except String (List ServeDoc)) (fetchDocs : Except String (List DocRaw))
       (caseFails serveFails fileFails docFails : String → Bool) (clientFails : Bool),
      ((deleteClient clientId now fetchCases fetchServes fetchDocs caseFails serveFails
          fileFails docFails clientFails).trace.filter RemoteOp.isServeDelete) = []) ∧
    (deleteClient "client1" 0 (Except.ok specCases) (Except.ok specServes) (Except.ok specDocs)
        (fun _ => false) (fun s => s == "serve2") (fun _ => false) (fun _ => false) false).trace =
      [RemoteOp.deleteCaseDoc "case1", RemoteOp.deleteCaseDoc "case2",
       RemoteOp.deleteFile "file1", RemoteOp.deleteDocRecord "doc1",
       RemoteOp.deleteClientDoc "client1"] ∧
    (deleteClient "client1" 0 (Except.ok specCases) (Except.ok specServes) (Except.ok specDocs)
        (fun _ => false) (fun s => s == "serve2") (fun _ => false) (fun _ => false) false).result =
      Except.ok true := by
  refine ⟨?_, by decide, rfl⟩
  intro clientId now fetchCases fetchServes fetchDocs caseFails serveFails fileFails
    docFails clientFails
  simp only [deleteClient, List.filter_append, caseTrace_no_serve_delete,
    serveTrace_empty, docTrace_no_serve_delete]
  simp [RemoteOp.isServeDelete]
